import Mathlib

/-!
Verification of the olt-manager device-monitoring core.

Shallow embedding of the monitoring subsystem of the olt-manager
repository:

* alarm model and severity escalation (backend/models/alarm.py),
* threshold/alarm engine and task scheduler
  (backend/services/monitoring_service.py),
* SNMP transport and ZTE protocol adapter
  (backend/services/snmp_service.py).

Python floats carried by metric samples and threshold bounds are
modelled as rationals; all comparisons performed by the code on those
values are order comparisons that the rationals reproduce exactly.
Timestamps (datetime.utcnow()) are modelled as natural numbers.
-/

namespace OltManager

/-- Alarm severity levels (backend/models/alarm.py, class AlarmSeverity). -/
inductive AlarmSeverity where
  | critical
  | major
  | minor
  | warning
  | info
deriving DecidableEq, BEq, Repr

/-- Alarm status (backend/models/alarm.py, class AlarmStatus). -/
inductive AlarmStatus where
  | active
  | acknowledged
  | cleared
  | suppressed
deriving DecidableEq, BEq, Repr

namespace Models

/-- Alarm record (backend/models/alarm.py, class Alarm); the columns read
or written by the lifecycle operations modelled here. -/
structure Alarm where
  alarm_id : String
  severity : AlarmSeverity
  status : AlarmStatus
  escalation_level : Nat
  occurrence_count : Nat
  is_active : Bool
  is_acknowledged : Bool
  is_cleared : Bool
deriving DecidableEq, Repr

/-- The severity ladder used by Alarm.escalate (backend/models/alarm.py,
lines 215-221, local severity_order). -/
def severity_order : List AlarmSeverity :=
  [AlarmSeverity.info, AlarmSeverity.warning, AlarmSeverity.minor,
   AlarmSeverity.major, AlarmSeverity.critical]

/-- Alarm.escalate (backend/models/alarm.py, lines 210-224): increment
escalation_level; when severity is not critical, promote it to the next
entry of severity_order (guarded by the index bound, as in the source). -/
def Alarm.escalate (a : Alarm) : Alarm :=
  let a1 : Alarm := { a with escalation_level := a.escalation_level + 1 }
  if a.severity ≠ AlarmSeverity.critical then
    let current_index := severity_order.indexOf a.severity
    if current_index < severity_order.length - 1 then
      { a1 with severity := severity_order.getD (current_index + 1) a1.severity }
    else a1
  else a1

end Models

namespace Monitoring

/-- A per-metric threshold entry (backend/services/monitoring_service.py,
lines 96-103): a Python dict that may carry "warning"/"critical" upper
bounds and "warning_low"/"critical_low" lower bounds; absent keys are read
with an infinite default, modelled here as Option. -/
structure ThresholdPair where
  warning : Option ℚ
  critical : Option ℚ
  warning_low : Option ℚ
  critical_low : Option ℚ
deriving DecidableEq, Repr

/-- The configured threshold table (MonitoringService.__init__,
backend/services/monitoring_service.py, lines 96-103).  Every entry uses
the "warning"/"critical" keys; none uses the "_low" keys. -/
def thresholds : String → Option ThresholdPair
  | "cpu_usage" => some ⟨some 80, some 95, none, none⟩
  | "memory_usage" => some ⟨some 85, some 95, none, none⟩
  | "temperature" => some ⟨some 70, some 85, none, none⟩
  | "optical_power_rx" => some ⟨some (-25), some (-30), none, none⟩
  | "optical_power_tx" => some ⟨some (-3), some (-5), none, none⟩
  | "ont_offline_ratio" => some ⟨some (1/10), some (1/5), none, none⟩
  | _ => none

/-- A performance-data row as the threshold engine reads it
(backend/services/monitoring_service.py, _check_thresholds and
_create_threshold_alarm): source identity, metric type (the enum value
string), numeric value and unit. -/
structure PerformanceData where
  device_id : ℤ
  device_type : String
  metric_type : String
  value : ℚ
  unit : String
deriving DecidableEq, Repr

/-- The extra payload stored on a freshly created threshold alarm
(_create_threshold_alarm, additional_data dict). -/
structure AdditionalData where
  metric_type : String
  value : ℚ
  threshold : ℚ
  threshold_type : String
  unit : String
deriving DecidableEq, Repr

/-- An alarm record with the fields the threshold engine queries and
writes (_create_threshold_alarm: device_id, device_type, alarm_type,
severity, status, message, timestamp, additional_data). -/
structure Alarm where
  device_id : ℤ
  device_type : String
  alarm_type : String
  severity : AlarmSeverity
  status : AlarmStatus
  message : String
  timestamp : Nat
  additional_data : Option AdditionalData
deriving DecidableEq, Repr

/-- The filter of the existing-alarm query in _create_threshold_alarm
(lines 580-587): same device_id, device_type, alarm_type
"threshold_<metric_type>", and status ACTIVE. -/
def alarmKeyMatch (data : PerformanceData) (a : Alarm) : Bool :=
  decide (a.device_id = data.device_id ∧
    a.device_type = data.device_type ∧
    a.alarm_type = "threshold_" ++ data.metric_type ∧
    a.status = AlarmStatus.active)

/-- Apply f to the first element satisfying p, keeping the rest; models
mutating the record returned by query(...).first(). -/
def updateFirst (p : α → Bool) (f : α → α) : List α → List α
  | [] => []
  | a :: as => if p a then f a :: as else a :: updateFirst p f as

/-- The alarm message text built by _create_threshold_alarm. -/
def thresholdMessage (metric threshold_type : String) (value : ℚ) (unit : String) : String :=
  metric ++ " " ++ threshold_type ++ " threshold exceeded: " ++ toString value ++ " " ++ unit

/-- The alarm record created by _create_threshold_alarm (lines 596-612)
when no ACTIVE alarm for the key exists. -/
def newThresholdAlarm (now : Nat) (data : PerformanceData) (severity : AlarmSeverity)
    (threshold_type : String) (value threshold : ℚ) : Alarm :=
  { device_id := data.device_id
    device_type := data.device_type
    alarm_type := "threshold_" ++ data.metric_type
    severity := severity
    status := AlarmStatus.active
    message := thresholdMessage data.metric_type threshold_type value data.unit
    timestamp := now
    additional_data := some ⟨data.metric_type, value, threshold, threshold_type, data.unit⟩ }

/-- MonitoringService._create_threshold_alarm
(backend/services/monitoring_service.py, lines 575-612), over an alarm
store modelled as the list of alarm rows: if an ACTIVE alarm with the
same (device_id, device_type, threshold_<metric_type>) key exists, update
its severity, message and timestamp in place; otherwise append a new
ACTIVE alarm. -/
def create_threshold_alarm (now : Nat) (data : PerformanceData) (severity : AlarmSeverity)
    (threshold_type : String) (value threshold : ℚ) (store : List Alarm) : List Alarm :=
  if (store.find? (alarmKeyMatch data)).isSome then
    updateFirst (alarmKeyMatch data)
      (fun a => { a with
        severity := severity
        message := thresholdMessage data.metric_type threshold_type value data.unit
        timestamp := now })
      store
  else
    store ++ [newThresholdAlarm now data severity threshold_type value threshold]

/-- The critical test of _check_thresholds (lines 558-559):
value >= thresholds.get("critical", inf) or
value <= thresholds.get("critical_low", -inf); an absent key with an
infinite default makes its disjunct false for every finite value. -/
def exceedsCritical (t : ThresholdPair) (value : ℚ) : Bool :=
  (match t.critical with
   | some c => decide (value ≥ c)
   | none => false) ||
  (match t.critical_low with
   | some c => decide (value ≤ c)
   | none => false)

/-- The warning test of _check_thresholds (lines 566-567). -/
def exceedsWarning (t : ThresholdPair) (value : ℚ) : Bool :=
  (match t.warning with
   | some w => decide (value ≥ w)
   | none => false) ||
  (match t.warning_low with
   | some w => decide (value ≤ w)
   | none => false)

/-- Processing of one sample by MonitoringService._check_thresholds
(lines 549-571): skip metrics without a configured threshold, otherwise
test the critical bound first and only then the warning bound.  Every
configured entry carries the "critical" and "warning" keys, so the
unconditional dict accesses thresholds["critical"] / ["warning"] are
modelled by Option.getD. -/
def check_thresholds_sample (now : Nat) (data : PerformanceData) (store : List Alarm) :
    List Alarm :=
  match thresholds data.metric_type with
  | none => store
  | some t =>
    if exceedsCritical t data.value then
      create_threshold_alarm now data AlarmSeverity.critical "critical"
        data.value (t.critical.getD 0) store
    else if exceedsWarning t data.value then
      create_threshold_alarm now data AlarmSeverity.warning "warning"
        data.value (t.warning.getD 0) store
    else store

/-- MonitoringService._check_thresholds over the recent-data batch:
fold the per-sample step over the rows in order. -/
def check_thresholds (now : Nat) (recent_data : List PerformanceData)
    (store : List Alarm) : List Alarm :=
  recent_data.foldl (fun st d => check_thresholds_sample now d st) store

/-- Number of ACTIVE alarms in the store carrying the threshold key of the
given sample. -/
def countActive (data : PerformanceData) (store : List Alarm) : Nat :=
  (store.filter (alarmKeyMatch data)).length

end Monitoring

namespace Scheduler

/-- Monitoring task types (backend/services/monitoring_service.py,
class MonitoringTaskType). -/
inductive MonitoringTaskType where
  | device_discovery
  | performance_collection
  | health_check
  | alarm_monitoring
  | threshold_check
deriving DecidableEq, BEq, Repr

/-- In-memory scheduling unit (backend/services/monitoring_service.py,
dataclass MonitoringTask, lines 36-54); timestamps are naturals. -/
structure MonitoringTask where
  task_id : String
  task_type : MonitoringTaskType
  target_device_id : Option String
  interval_seconds : Nat
  enabled : Bool
  last_run : Option Nat
  next_run : Nat
  error_count : Nat
  max_errors : Nat
deriving DecidableEq, Repr

/-- Construction of a MonitoringTask at time now with the dataclass
defaults (enabled True, error_count 0, max_errors 5, last_run None) and
__post_init__ (lines 52-54): a task built without an explicit next_run
gets next_run = datetime.utcnow(), i.e. the construction time. -/
def MonitoringTask.make (now : Nat) (task_id : String) (task_type : MonitoringTaskType)
    (interval_seconds : Nat) (next_run0 : Option Nat) : MonitoringTask :=
  { task_id := task_id
    task_type := task_type
    target_device_id := none
    interval_seconds := interval_seconds
    enabled := true
    last_run := none
    next_run := next_run0.getD now
    error_count := 0
    max_errors := 5 }

/-- MonitoringTask.is_due (lines 56-59): enabled and next_run <= now. -/
def MonitoringTask.is_due (t : MonitoringTask) (now : Nat) : Bool :=
  t.enabled && decide (t.next_run ≤ now)

/-- MonitoringTask.is_healthy (lines 61-64): error_count < max_errors. -/
def MonitoringTask.is_healthy (t : MonitoringTask) : Bool :=
  decide (t.error_count < t.max_errors)

/-- MonitoringTask.schedule_next_run (lines 66-68). -/
def MonitoringTask.schedule_next_run (t : MonitoringTask) (now : Nat) : MonitoringTask :=
  { t with next_run := now + t.interval_seconds }

/-- MonitoringTask.mark_success (lines 70-74): record last_run, reset the
error counter and schedule the next run. -/
def MonitoringTask.mark_success (t : MonitoringTask) (now : Nat) : MonitoringTask :=
  MonitoringTask.schedule_next_run
    { t with last_run := some now, error_count := 0 } now

/-- MonitoringTask.mark_error (lines 76-83): increment the error counter;
if it reaches max_errors, disable the task (and schedule no next run),
otherwise schedule the next run. -/
def MonitoringTask.mark_error (t : MonitoringTask) (now : Nat) : MonitoringTask :=
  let t1 : MonitoringTask := { t with error_count := t.error_count + 1 }
  if t1.error_count ≥ t1.max_errors then
    { t1 with enabled := false }
  else
    t1.schedule_next_run now

/-- Due-task selection of the monitoring loop
(MonitoringService._monitoring_loop, line 136): the tasks that are due
and healthy. -/
def dueTasks (now : Nat) (tasks : List MonitoringTask) : List MonitoringTask :=
  tasks.filter (fun t => t.is_due now && t.is_healthy)

/-- The default task set created at startup
(MonitoringService._initialize_default_tasks, lines 184-216): all four
tasks are constructed without an explicit next_run. -/
def initialize_default_tasks (now : Nat) : List MonitoringTask :=
  [MonitoringTask.make now "global_device_discovery" MonitoringTaskType.device_discovery 600 none,
   MonitoringTask.make now "global_health_check" MonitoringTaskType.health_check 300 none,
   MonitoringTask.make now "global_threshold_check" MonitoringTaskType.threshold_check 120 none,
   MonitoringTask.make now "global_alarm_monitoring" MonitoringTaskType.alarm_monitoring 60 none]

end Scheduler

namespace Snmp

/-- A raw SNMP value as delivered by the transport: the OIDs the adapter
decodes carry integers (status codes, scaled fixed-point readings,
counters) or octet strings (names, serials, versions). -/
inductive SnmpValue where
  | int (z : ℤ)
  | str (s : String)
deriving DecidableEq, Repr

/-- Python str() applied to a raw value. -/
def pyStr : SnmpValue → String
  | SnmpValue.int z => toString z
  | SnmpValue.str s => s

/-- Read a nonempty run of decimal digits as a natural number; any other
character fails. -/
def digitsToNat (l : List Char) : Option Nat :=
  if l.isEmpty then none
  else
    l.foldl
      (fun acc c =>
        match acc with
        | none => none
        | some n => if c.isDigit then some (n * 10 + (c.toNat - 48)) else none)
      (some 0)

/-- Python int() on a string: an optional minus sign followed by decimal
digits; anything else raises ValueError (None here).  The other forms
Python accepts (surrounding whitespace, plus sign, underscores) never
occur in the dotted-numeric OID components this is applied to. -/
def pyParseInt (s : String) : Option ℤ :=
  match s.data with
  | [] => none
  | c :: cs =>
    if c = '-' then (digitsToNat cs).map fun n => -(n : ℤ)
    else (digitsToNat (c :: cs)).map fun n => (n : ℤ)

/-- Python str.split(".") : cut at every dot, keeping empty segments. -/
def splitDot (s : String) : List String :=
  let r := s.data.foldl
    (fun (acc : List String × String) c =>
      if c = '.' then (acc.1 ++ [acc.2], "") else (acc.1, acc.2.push c))
    ([], "")
  r.1 ++ [r.2]

/-- Python int() applied to a raw value; a string that is not an integer
numeral raises, which the adapter catches and turns into None. -/
def pyInt : SnmpValue → Option ℤ
  | SnmpValue.int z => some z
  | SnmpValue.str s => pyParseInt s

/-- Python float() applied to a raw value.  The numeric OIDs deliver
integers; an integer-numeral string converts, and any other string raises
(caught by the adapter, giving None).  Non-integer decimal strings never
occur on these OIDs and are mapped to the raising case. -/
def pyFloat : SnmpValue → Option ℚ
  | SnmpValue.int z => some (z : ℚ)
  | SnmpValue.str s => (pyParseInt s).map fun z => (z : ℚ)

/-- Python bool() applied to a raw value. -/
def pyBool : SnmpValue → Bool
  | SnmpValue.int z => z != 0
  | SnmpValue.str s => s != ""

/-- One device response to a GET of several OIDs (SNMPService.get_bulk):
an error indication (transport-level), an error status (protocol-level)
and the variable bindings, in request order. -/
structure BulkResponse (α : Type) where
  errorIndication : Bool
  errorStatus : Bool
  varBinds : List α
deriving DecidableEq, Repr

/-- Insertion into a Python dict modelled as an insertion-ordered
association list: replace the value of an existing key in place,
otherwise append. -/
def assocUpsert (k : String) (v : α) : List (String × α) → List (String × α)
  | [] => [(k, v)]
  | (k1, v1) :: rest =>
    if k1 == k then (k1, v) :: rest else (k1, v1) :: assocUpsert k v rest

/-- Build a dict from key/value pairs by successive insertion. -/
def dictOfPairs (l : List (String × α)) : List (String × α) :=
  l.foldl (fun m kv => assocUpsert kv.1 kv.2 m) []

/-- SNMPService.get_bulk (backend/services/snmp_service.py, lines
151-183): on an error indication or a protocol error status return the
empty result dict; otherwise assign results[oids[i]] = var_binds[i] for
each response index i below len(oids) (the enumerate guard, i.e. the
positional zip of requests and bindings). -/
def get_bulk (oids : List String) (resp : BulkResponse α) : List (String × α) :=
  if resp.errorIndication then []
  else if resp.errorStatus then []
  else dictOfPairs (oids.zip resp.varBinds)

/-- ONT record decoded by the adapter (backend/services/snmp_service.py,
dataclass ONTInfo). -/
structure ONTInfo where
  ont_id : ℤ
  serial_number : String
  status : String
  distance : ℤ
  rx_power : ℚ
  tx_power : ℚ
  voltage : ℚ
  temperature : ℚ
  firmware_version : String
  hardware_version : String
  mac_address : String
  uptime : ℤ
  rx_bytes : ℤ
  tx_bytes : ℤ
  rx_packets : ℤ
  tx_packets : ℤ
deriving DecidableEq, Repr

/-- Port record decoded by the adapter (backend/services/snmp_service.py,
dataclass PortInfo). -/
structure PortInfo where
  slot : ℤ
  port : ℤ
  admin_status : Bool
  oper_status : String
  ont_count : ℤ
  max_ont_count : ℤ
  optical_power_tx : ℚ
  optical_power_rx : ℚ
  temperature : ℚ
  voltage : ℚ
  bias_current : ℚ
  rx_bytes : ℤ
  tx_bytes : ℤ
  rx_packets : ℤ
  tx_packets : ℤ
  rx_errors : ℤ
  tx_errors : ℤ
deriving DecidableEq, Repr

/-- ZTE C320 OID constants (class ZTEOLTService). -/
def OID_PORT_ADMIN_STATUS : String := "1.3.6.1.4.1.3902.1012.3.28.1.1.3"

def OID_PORT_OPER_STATUS : String := "1.3.6.1.4.1.3902.1012.3.28.1.1.4"

def OID_PORT_ONT_COUNT : String := "1.3.6.1.4.1.3902.1012.3.28.1.1.5"

def OID_PORT_MAX_ONT : String := "1.3.6.1.4.1.3902.1012.3.28.1.1.6"

def OID_PORT_OPTICAL_TX : String := "1.3.6.1.4.1.3902.1012.3.28.1.1.7"

def OID_PORT_OPTICAL_RX : String := "1.3.6.1.4.1.3902.1012.3.28.1.1.8"

def OID_PORT_TEMPERATURE : String := "1.3.6.1.4.1.3902.1012.3.28.1.1.9"

def OID_PORT_VOLTAGE : String := "1.3.6.1.4.1.3902.1012.3.28.1.1.10"

def OID_PORT_BIAS_CURRENT : String := "1.3.6.1.4.1.3902.1012.3.28.1.1.11"

def OID_PORT_RX_BYTES : String := "1.3.6.1.4.1.3902.1012.3.28.2.1.2"

def OID_PORT_TX_BYTES : String := "1.3.6.1.4.1.3902.1012.3.28.2.1.3"

def OID_PORT_RX_PACKETS : String := "1.3.6.1.4.1.3902.1012.3.28.2.1.4"

def OID_PORT_TX_PACKETS : String := "1.3.6.1.4.1.3902.1012.3.28.2.1.5"

def OID_PORT_RX_ERRORS : String := "1.3.6.1.4.1.3902.1012.3.28.2.1.6"

def OID_PORT_TX_ERRORS : String := "1.3.6.1.4.1.3902.1012.3.28.2.1.7"

def OID_ONT_STATUS : String := "1.3.6.1.4.1.3902.1012.3.50.12.1.1.10"

def OID_ONT_DISTANCE : String := "1.3.6.1.4.1.3902.1012.3.50.12.1.1.11"

def OID_ONT_RX_POWER : String := "1.3.6.1.4.1.3902.1012.3.50.12.1.1.12"

def OID_ONT_TX_POWER : String := "1.3.6.1.4.1.3902.1012.3.50.12.1.1.13"

def OID_ONT_VOLTAGE : String := "1.3.6.1.4.1.3902.1012.3.50.12.1.1.14"

def OID_ONT_TEMPERATURE : String := "1.3.6.1.4.1.3902.1012.3.50.12.1.1.15"

def OID_ONT_SERIAL : String := "1.3.6.1.4.1.3902.1012.3.50.12.1.1.3"

def OID_ONT_FIRMWARE : String := "1.3.6.1.4.1.3902.1012.3.50.12.1.1.16"

def OID_ONT_HARDWARE : String := "1.3.6.1.4.1.3902.1012.3.50.12.1.1.17"

def OID_ONT_MAC : String := "1.3.6.1.4.1.3902.1012.3.50.12.1.1.18"

def OID_ONT_UPTIME : String := "1.3.6.1.4.1.3902.1012.3.50.12.1.1.19"

def OID_ONT_RX_BYTES : String := "1.3.6.1.4.1.3902.1012.3.50.13.1.1.2"

def OID_ONT_TX_BYTES : String := "1.3.6.1.4.1.3902.1012.3.50.13.1.1.3"

def OID_ONT_RX_PACKETS : String := "1.3.6.1.4.1.3902.1012.3.50.13.1.1.4"

def OID_ONT_TX_PACKETS : String := "1.3.6.1.4.1.3902.1012.3.50.13.1.1.5"

/-- The ONT status code map of get_ont_info (line 465):
status_map = 1 online, 2 offline, 3 dying_gasp, 4 los. -/
def ont_status_map (code : ℤ) : Option String :=
  if code = 1 then some "online"
  else if code = 2 then some "offline"
  else if code = 3 then some "dying_gasp"
  else if code = 4 then some "los"
  else none

/-- The request list of get_ont_info (lines 440-456): the fifteen ONT
OIDs suffixed with the index slot.port.ont_id. -/
def ontOids (ont_index : String) : List String :=
  [OID_ONT_STATUS ++ "." ++ ont_index,
   OID_ONT_DISTANCE ++ "." ++ ont_index,
   OID_ONT_RX_POWER ++ "." ++ ont_index,
   OID_ONT_TX_POWER ++ "." ++ ont_index,
   OID_ONT_VOLTAGE ++ "." ++ ont_index,
   OID_ONT_TEMPERATURE ++ "." ++ ont_index,
   OID_ONT_SERIAL ++ "." ++ ont_index,
   OID_ONT_FIRMWARE ++ "." ++ ont_index,
   OID_ONT_HARDWARE ++ "." ++ ont_index,
   OID_ONT_MAC ++ "." ++ ont_index,
   OID_ONT_UPTIME ++ "." ++ ont_index,
   OID_ONT_RX_BYTES ++ "." ++ ont_index,
   OID_ONT_TX_BYTES ++ "." ++ ont_index,
   OID_ONT_RX_PACKETS ++ "." ++ ont_index,
   OID_ONT_TX_PACKETS ++ "." ++ ont_index]

/-- The ont_data.get(oid, 0) read of get_ont_info: numeric fields are
read with integer default 0. -/
def ontGetI (ont_data : List (String × SnmpValue)) (ont_index base : String) : SnmpValue :=
  (ont_data.lookup (base ++ "." ++ ont_index)).getD (SnmpValue.int 0)

/-- The ont_data.get(oid, "") read of get_ont_info: string fields are
read with empty-string default. -/
def ontGetS (ont_data : List (String × SnmpValue)) (ont_index base : String) : SnmpValue :=
  (ont_data.lookup (base ++ "." ++ ont_index)).getD (SnmpValue.str "")

/-- The field decoding of get_ont_info (lines 463-485) from the bulk
result dict: status via the code map with "unknown" fallback, optical
powers and temperature divided by 100, voltage by 1000; a failing
int()/float() conversion raises and is caught, yielding None. -/
def decodeOnt (ont_id : ℤ) (ont_index : String)
    (ont_data : List (String × SnmpValue)) : Option ONTInfo := do
  let status_code ← pyInt (ontGetI ont_data ont_index OID_ONT_STATUS)
  let status := (ont_status_map status_code).getD "unknown"
  let distance ← pyInt (ontGetI ont_data ont_index OID_ONT_DISTANCE)
  let rx_power_raw ← pyFloat (ontGetI ont_data ont_index OID_ONT_RX_POWER)
  let tx_power_raw ← pyFloat (ontGetI ont_data ont_index OID_ONT_TX_POWER)
  let voltage_raw ← pyFloat (ontGetI ont_data ont_index OID_ONT_VOLTAGE)
  let temperature_raw ← pyFloat (ontGetI ont_data ont_index OID_ONT_TEMPERATURE)
  let uptime ← pyInt (ontGetI ont_data ont_index OID_ONT_UPTIME)
  let rx_bytes ← pyInt (ontGetI ont_data ont_index OID_ONT_RX_BYTES)
  let tx_bytes ← pyInt (ontGetI ont_data ont_index OID_ONT_TX_BYTES)
  let rx_packets ← pyInt (ontGetI ont_data ont_index OID_ONT_RX_PACKETS)
  let tx_packets ← pyInt (ontGetI ont_data ont_index OID_ONT_TX_PACKETS)
  some
    { ont_id := ont_id
      serial_number := pyStr (ontGetS ont_data ont_index OID_ONT_SERIAL)
      status := status
      distance := distance
      rx_power := rx_power_raw / 100
      tx_power := tx_power_raw / 100
      voltage := voltage_raw / 1000
      temperature := temperature_raw / 100
      firmware_version := pyStr (ontGetS ont_data ont_index OID_ONT_FIRMWARE)
      hardware_version := pyStr (ontGetS ont_data ont_index OID_ONT_HARDWARE)
      mac_address := pyStr (ontGetS ont_data ont_index OID_ONT_MAC)
      uptime := uptime
      rx_bytes := rx_bytes
      tx_bytes := tx_bytes
      rx_packets := rx_packets
      tx_packets := tx_packets }

/-- ZTEOLTService.get_ont_info (backend/services/snmp_service.py, lines
434-491) against a device bulk response: issue the bulk GET on the
fifteen indexed ONT OIDs, return None on an empty result dict, otherwise
decode the fields. -/
def get_ont_info (slot port ont_id : ℤ) (resp : BulkResponse SnmpValue) : Option ONTInfo :=
  let ont_index := toString slot ++ "." ++ toString port ++ "." ++ toString ont_id
  let ont_data := get_bulk (ontOids ont_index) resp
  if ont_data.isEmpty then none
  else decodeOnt ont_id ont_index ont_data

/-- The request list of get_port_info (lines 385-401): the fifteen port
OIDs suffixed with the index slot.port. -/
def portOids (port_index : String) : List String :=
  [OID_PORT_ADMIN_STATUS ++ "." ++ port_index,
   OID_PORT_OPER_STATUS ++ "." ++ port_index,
   OID_PORT_ONT_COUNT ++ "." ++ port_index,
   OID_PORT_MAX_ONT ++ "." ++ port_index,
   OID_PORT_OPTICAL_TX ++ "." ++ port_index,
   OID_PORT_OPTICAL_RX ++ "." ++ port_index,
   OID_PORT_TEMPERATURE ++ "." ++ port_index,
   OID_PORT_VOLTAGE ++ "." ++ port_index,
   OID_PORT_BIAS_CURRENT ++ "." ++ port_index,
   OID_PORT_RX_BYTES ++ "." ++ port_index,
   OID_PORT_TX_BYTES ++ "." ++ port_index,
   OID_PORT_RX_PACKETS ++ "." ++ port_index,
   OID_PORT_TX_PACKETS ++ "." ++ port_index,
   OID_PORT_RX_ERRORS ++ "." ++ port_index,
   OID_PORT_TX_ERRORS ++ "." ++ port_index]

/-- The port_data.get(oid, 0) read of get_port_info. -/
def portGetI (port_data : List (String × SnmpValue)) (port_index base : String) : SnmpValue :=
  (port_data.lookup (base ++ "." ++ port_index)).getD (SnmpValue.int 0)

/-- The field decoding of get_port_info (lines 408-426) from the bulk
result dict: optical powers and temperature divided by 100, voltage and
bias current by 1000; oper_status is "up" exactly when the raw value
equals the integer 1. -/
def decodePort (slot port : ℤ) (port_index : String)
    (port_data : List (String × SnmpValue)) : Option PortInfo := do
  let ont_count ← pyInt (portGetI port_data port_index OID_PORT_ONT_COUNT)
  let max_ont_count ← pyInt (portGetI port_data port_index OID_PORT_MAX_ONT)
  let optical_tx_raw ← pyFloat (portGetI port_data port_index OID_PORT_OPTICAL_TX)
  let optical_rx_raw ← pyFloat (portGetI port_data port_index OID_PORT_OPTICAL_RX)
  let temperature_raw ← pyFloat (portGetI port_data port_index OID_PORT_TEMPERATURE)
  let voltage_raw ← pyFloat (portGetI port_data port_index OID_PORT_VOLTAGE)
  let bias_raw ← pyFloat (portGetI port_data port_index OID_PORT_BIAS_CURRENT)
  let rx_bytes ← pyInt (portGetI port_data port_index OID_PORT_RX_BYTES)
  let tx_bytes ← pyInt (portGetI port_data port_index OID_PORT_TX_BYTES)
  let rx_packets ← pyInt (portGetI port_data port_index OID_PORT_RX_PACKETS)
  let tx_packets ← pyInt (portGetI port_data port_index OID_PORT_TX_PACKETS)
  let rx_errors ← pyInt (portGetI port_data port_index OID_PORT_RX_ERRORS)
  let tx_errors ← pyInt (portGetI port_data port_index OID_PORT_TX_ERRORS)
  some
    { slot := slot
      port := port
      admin_status := pyBool (portGetI port_data port_index OID_PORT_ADMIN_STATUS)
      oper_status :=
        if portGetI port_data port_index OID_PORT_OPER_STATUS = SnmpValue.int 1
        then "up" else "down"
      ont_count := ont_count
      max_ont_count := max_ont_count
      optical_power_tx := optical_tx_raw / 100
      optical_power_rx := optical_rx_raw / 100
      temperature := temperature_raw / 100
      voltage := voltage_raw / 1000
      bias_current := bias_raw / 1000
      rx_bytes := rx_bytes
      tx_bytes := tx_bytes
      rx_packets := rx_packets
      tx_packets := tx_packets
      rx_errors := rx_errors
      tx_errors := tx_errors }

/-- ZTEOLTService.get_port_info (backend/services/snmp_service.py, lines
379-432) against a device bulk response: issue the bulk GET on the
fifteen indexed port OIDs, return None on an empty result dict,
otherwise decode the fields. -/
def get_port_info (slot port : ℤ) (resp : BulkResponse SnmpValue) : Option PortInfo :=
  let port_index := toString slot ++ "." ++ toString port
  let port_data := get_bulk (portOids port_index) resp
  if port_data.isEmpty then none
  else decodePort slot port port_index port_data

/-- OID-suffix parsing of discover_all_onts (lines 531-536): split the
walked OID on dots and read the last component as the ONT id; a
non-integer component raises ValueError and the entry is skipped. -/
def parse_ont_id (oid : String) : Option ℤ :=
  match (splitDot oid).getLast? with
  | some s => pyParseInt s
  | none => none

/-- ZTEOLTService.discover_all_onts (backend/services/snmp_service.py,
lines 522-549): walk the ONT status subtree of the port (walkData is the
walk result dict), parse each walked OID into an ONT id, fetch the ONT
detail via get_ont_info against that ONT's bulk response (respOf), skip
entries whose parse or fetch fails, and accumulate the successes. -/
def discover_all_onts (slot port : ℤ) (walkData : List (String × SnmpValue))
    (respOf : ℤ → BulkResponse SnmpValue) : List ONTInfo :=
  walkData.foldl
    (fun onts kv =>
      match parse_ont_id kv.1 with
      | some ont_id =>
        match get_ont_info slot port ont_id (respOf ont_id) with
        | some ont_info => onts ++ [ont_info]
        | none => onts
      | none => onts)
    []

end Snmp

namespace Monitoring

theorem updateFirst_length (p : α → Bool) (f : α → α) (l : List α) :
    (updateFirst p f l).length = l.length := by
  induction l with
  | nil => rfl
  | cons a t ih => by_cases h : p a <;> simp [updateFirst, h, ih]

theorem updateFirst_filter_length (p : α → Bool) (f : α → α)
    (hf : ∀ a, p (f a) = p a) (l : List α) :
    ((updateFirst p f l).filter p).length = (l.filter p).length := by
  induction l with
  | nil => rfl
  | cons a t ih =>
    by_cases h : p a
    · simp [updateFirst, h, List.filter, hf a]
    · simp [updateFirst, h, List.filter, ih]

theorem alarmKeyMatch_newThresholdAlarm (now : Nat) (data : PerformanceData)
    (sev : AlarmSeverity) (tt : String) (v th : ℚ) :
    alarmKeyMatch data (newThresholdAlarm now data sev tt v th) = true := by
  simp [alarmKeyMatch, newThresholdAlarm]

theorem countActive_eq_zero_of_find_none (data : PerformanceData) (store : List Alarm)
    (h : store.find? (alarmKeyMatch data) = none) : countActive data store = 0 := by
  unfold countActive
  have hall := List.find?_eq_none.mp h
  simp [List.filter_eq_nil_iff.mpr hall]

theorem countActive_create_threshold_alarm_le (now : Nat) (data : PerformanceData)
    (sev : AlarmSeverity) (tt : String) (v th : ℚ) (store : List Alarm)
    (h : countActive data store ≤ 1) :
    countActive data (create_threshold_alarm now data sev tt v th store) ≤ 1 := by
  unfold create_threshold_alarm
  by_cases hs : (store.find? (alarmKeyMatch data)).isSome
  · unfold countActive at h ⊢
    simp only [hs, if_true]
    rw [updateFirst_filter_length (alarmKeyMatch data)
      (fun a => { a with
        severity := sev
        message := thresholdMessage data.metric_type tt v data.unit
        timestamp := now })
      (fun a => rfl)]
    exact h
  · have hn : store.find? (alarmKeyMatch data) = none :=
      Option.not_isSome_iff_eq_none.mp hs
    have h0 : countActive data store = 0 := countActive_eq_zero_of_find_none data store hn
    unfold countActive at h0 ⊢
    simp only [hs, if_false, Bool.false_eq_true]
    rw [List.filter_append, List.length_append, h0]
    simp [alarmKeyMatch_newThresholdAlarm]

theorem countActive_check_sample_le (now : Nat) (data : PerformanceData)
    (store : List Alarm) (h : countActive data store ≤ 1) :
    countActive data (check_thresholds_sample now data store) ≤ 1 := by
  unfold check_thresholds_sample
  cases hthr : thresholds data.metric_type with
  | none => exact h
  | some t =>
    by_cases hc : exceedsCritical t data.value
    · simp only [hc, if_true]
      exact countActive_create_threshold_alarm_le now data _ _ _ _ store h
    · by_cases hw : exceedsWarning t data.value
      · simp only [hc, hw, if_true, if_false, Bool.false_eq_true]
        exact countActive_create_threshold_alarm_le now data _ _ _ _ store h
      · simp only [hc, hw, if_false, Bool.false_eq_true]
        exact h

/-- C1: a threshold breach first looks for an ACTIVE alarm with the key
(device_id, device_type, threshold_<metric_type>); when one exists the
store is rewritten in place (severity, message, timestamp of the first
match) and no alarm is added, and only when none exists is a new ACTIVE
alarm appended — hence repeated breaches for the same source and metric
type never leave more than one ACTIVE alarm with that key. -/
theorem threshold_alarm_at_most_one_active (now : Nat) (data : PerformanceData)
    (sev : AlarmSeverity) (tt : String) (v th : ℚ) (store : List Alarm) :
    ((store.find? (alarmKeyMatch data)).isSome = true →
      create_threshold_alarm now data sev tt v th store
        = updateFirst (alarmKeyMatch data)
            (fun a => { a with
              severity := sev
              message := thresholdMessage data.metric_type tt v data.unit
              timestamp := now }) store
      ∧ (create_threshold_alarm now data sev tt v th store).length = store.length)
    ∧ ((store.find? (alarmKeyMatch data)).isSome = false →
      create_threshold_alarm now data sev tt v th store
        = store ++ [newThresholdAlarm now data sev tt v th])
    ∧ (countActive data store ≤ 1 →
      ∀ n, countActive data (check_thresholds now (List.replicate n data) store) ≤ 1) := by
  refine ⟨fun hs => ⟨?_, ?_⟩, fun hn => ?_, fun h1 n => ?_⟩
  · simp [create_threshold_alarm, hs]
  · simp [create_threshold_alarm, hs, updateFirst_length]
  · simp [create_threshold_alarm, hn]
  · induction n generalizing store with
    | zero => simpa [check_thresholds] using h1
    | succ m ih =>
      rw [List.replicate_succ]
      have hstep := countActive_check_sample_le now data store h1
      exact ih _ hstep

/-- Witness for C1 at a concrete input: three consecutive CPU samples at
96 percent (critical bound 95) leave at most one ACTIVE alarm, and on an
empty store the first breach appends exactly the new ACTIVE alarm. -/
theorem threshold_alarm_at_most_one_active_witness :
    countActive ⟨1, "olt", "cpu_usage", 96, "percent"⟩
      (check_thresholds 5
        (List.replicate 3 ⟨1, "olt", "cpu_usage", 96, "percent"⟩) []) ≤ 1
    ∧ create_threshold_alarm 5 ⟨1, "olt", "cpu_usage", 96, "percent"⟩
        AlarmSeverity.critical "critical" 96 95 []
      = [] ++ [newThresholdAlarm 5 ⟨1, "olt", "cpu_usage", 96, "percent"⟩
          AlarmSeverity.critical "critical" 96 95] :=
  ⟨(threshold_alarm_at_most_one_active 5 ⟨1, "olt", "cpu_usage", 96, "percent"⟩
      AlarmSeverity.critical "critical" 96 95 []).2.2 (by decide) 3,
   (threshold_alarm_at_most_one_active 5 ⟨1, "olt", "cpu_usage", 96, "percent"⟩
      AlarmSeverity.critical "critical" 96 95 []).2.1 (by decide)⟩

/-- C2: a sample breaching both the warning and the critical upper bound
of its configured metric type takes the critical branch of
_check_thresholds — the engine is invoked with severity CRITICAL and the
critical bound, never with WARNING. -/
theorem severity_precedence (now : Nat) (data : PerformanceData) (t : ThresholdPair)
    (w c : ℚ) (store : List Alarm)
    (ht : thresholds data.metric_type = some t)
    (hw : t.warning = some w) (hc : t.critical = some c)
    (hbw : data.value ≥ w) (hbc : data.value ≥ c) :
    check_thresholds_sample now data store
      = create_threshold_alarm now data AlarmSeverity.critical "critical"
          data.value c store := by
  have hcrit : exceedsCritical t data.value = true := by
    simp [exceedsCritical, hc, hbc]
  simp [check_thresholds_sample, ht, hcrit, hc]

/-- Witness for C2: CPU at 97 percent breaches warning 80 and critical 95
and yields the critical-branch engine call. -/
theorem severity_precedence_witness :
    check_thresholds_sample 0 ⟨1, "olt", "cpu_usage", 97, "percent"⟩ []
      = create_threshold_alarm 0 ⟨1, "olt", "cpu_usage", 97, "percent"⟩
          AlarmSeverity.critical "critical" 97 95 [] :=
  severity_precedence 0 ⟨1, "olt", "cpu_usage", 97, "percent"⟩
    ⟨some 80, some 95, none, none⟩ 80 95 [] (by decide) rfl rfl (by decide) (by decide)

/-- C3 (code bug): the configured optical_power_rx bounds (warning -25,
critical -30) sit under the upper-bound keys, so _check_thresholds raises
a CRITICAL alarm for a healthy -10 dBm reading (since -10 >= -30) and
raises nothing for a degraded -40 dBm reading — the opposite of the
specified low-direction semantics. -/
theorem optical_rx_threshold_inverted :
    (check_thresholds_sample 0 ⟨1, "olt_port", "optical_power_rx", -10, "dbm"⟩ []).map
        (fun a => (a.severity, a.status))
      = [(AlarmSeverity.critical, AlarmStatus.active)]
    ∧ check_thresholds_sample 0 ⟨1, "olt_port", "optical_power_rx", -40, "dbm"⟩ [] = [] := by
  decide

/-- C7: a sample whose metric type has no entry in the threshold table
leaves the alarm store unchanged. -/
theorem no_threshold_noop (now : Nat) (data : PerformanceData) (store : List Alarm)
    (h : thresholds data.metric_type = none) :
    check_thresholds_sample now data store = store := by
  simp [check_thresholds_sample, h]

/-- Witness for C7: a latency sample (no configured threshold) is a
no-op on a nonempty store. -/
theorem no_threshold_noop_witness :
    check_thresholds_sample 0 ⟨1, "olt", "latency", 500, "ms"⟩
        [⟨1, "olt", "threshold_cpu_usage", AlarmSeverity.critical,
          AlarmStatus.active, "m", 0, none⟩]
      = [⟨1, "olt", "threshold_cpu_usage", AlarmSeverity.critical,
          AlarmStatus.active, "m", 0, none⟩] :=
  no_threshold_noop 0 ⟨1, "olt", "latency", 500, "ms"⟩
    [⟨1, "olt", "threshold_cpu_usage", AlarmSeverity.critical,
      AlarmStatus.active, "m", 0, none⟩] rfl

end Monitoring

namespace Scheduler

/-- C4: a failed execution increments the consecutive-error counter;
when the incremented counter reaches max_errors the task is disabled, and
a disabled task is never selected by the due-task filter of the
monitoring loop; a successful execution resets the counter to 0 and sets
next_run = now + interval. -/
theorem task_self_disable (t : MonitoringTask) (now : Nat) :
    ((t.mark_error now).error_count = t.error_count + 1)
    ∧ (t.error_count + 1 ≥ t.max_errors → (t.mark_error now).enabled = false)
    ∧ (∀ u : MonitoringTask, u.enabled = false →
        ∀ now2 tasks, u ∉ dueTasks now2 tasks)
    ∧ ((t.mark_success now).error_count = 0
        ∧ (t.mark_success now).next_run = now + t.interval_seconds) := by
  refine ⟨?_, fun h => ?_, fun u hu now2 tasks hmem => ?_, rfl, rfl⟩
  · by_cases h2 : t.error_count + 1 ≥ t.max_errors <;>
      simp [MonitoringTask.mark_error, MonitoringTask.schedule_next_run, h2]
  · simp [MonitoringTask.mark_error, h]
  · have := (List.mem_filter.mp hmem).2
    simp [MonitoringTask.is_due, hu] at this

/-- Witness for C4: a task with max_errors = 3 is disabled by its third
consecutive failure and is then excluded from due-task selection. -/
theorem task_self_disable_witness :
    ((({ MonitoringTask.make 0 "t" MonitoringTaskType.health_check 300 none with
        max_errors := 3 }.mark_error 0).mark_error 0).mark_error 0).enabled = false
    ∧ ((({ MonitoringTask.make 0 "t" MonitoringTaskType.health_check 300 none with
        max_errors := 3 }.mark_error 0).mark_error 0).mark_error 0) ∉
        dueTasks 1000
          [(({ MonitoringTask.make 0 "t" MonitoringTaskType.health_check 300 none with
            max_errors := 3 }.mark_error 0).mark_error 0).mark_error 0] :=
  ⟨(task_self_disable
      (({ MonitoringTask.make 0 "t" MonitoringTaskType.health_check 300 none with
        max_errors := 3 }.mark_error 0).mark_error 0) 0).2.1 (by decide),
   (task_self_disable
      ({ MonitoringTask.make 0 "t" MonitoringTaskType.health_check 300 none with
        max_errors := 3 }) 0).2.2.1 _ (by decide) 1000 _⟩

/-- C10: a MonitoringTask constructed without an explicit next_run gets
next_run = construction time, so it is due at every tick at or after
construction, and each of the four default tasks (all constructed with
next_run None) is due on the first tick. -/
theorem new_task_first_tick_due (t0 : Nat) (id : String) (ty : MonitoringTaskType)
    (interval : Nat) :
    ((MonitoringTask.make t0 id ty interval none).next_run = t0)
    ∧ (∀ now, t0 ≤ now → (MonitoringTask.make t0 id ty interval none).is_due now = true)
    ∧ (∀ now, t0 ≤ now → ∀ t ∈ initialize_default_tasks t0, t.is_due now = true) := by
  refine ⟨rfl, fun now h => ?_, fun now h t ht => ?_⟩
  · simp [MonitoringTask.make, MonitoringTask.is_due, h]
  · simp only [initialize_default_tasks, List.mem_cons, List.not_mem_nil, or_false] at ht
    rcases ht with h1 | h1 | h1 | h1 <;>
      simp [h1, MonitoringTask.make, MonitoringTask.is_due, h]

/-- Witness for C10: a task created at tick 5 is due at tick 5, and all
default tasks created at tick 4 are due at tick 4. -/
theorem new_task_first_tick_due_witness :
    (MonitoringTask.make 5 "x" MonitoringTaskType.device_discovery 600 none).is_due 5 = true
    ∧ ∀ t ∈ initialize_default_tasks 4, t.is_due 4 = true :=
  ⟨(new_task_first_tick_due 5 "x" MonitoringTaskType.device_discovery 600).2.1 5 (by decide),
   (new_task_first_tick_due 4 "x" MonitoringTaskType.device_discovery 600).2.2 4 (by decide)⟩

end Scheduler

namespace Models

theorem escalate_escalation_level (a : Alarm) :
    (Alarm.escalate a).escalation_level = a.escalation_level + 1 := by
  cases a with
  | mk id sev st lvl oc ia ik ic => cases sev <;> rfl

theorem escalate_iterate_level (a : Alarm) (n : Nat) :
    (Alarm.escalate^[n] a).escalation_level = a.escalation_level + n := by
  induction n generalizing a with
  | zero => rfl
  | succ m ih =>
    rw [Function.iterate_succ_apply]
    rw [ih (Alarm.escalate a), escalate_escalation_level]
    omega

theorem escalate_critical_fixed (a : Alarm) (h : a.severity = AlarmSeverity.critical) :
    (Alarm.escalate a).severity = AlarmSeverity.critical := by
  cases a with
  | mk id sev st lvl oc ia ik ic =>
    cases sev <;> first | rfl | exact absurd h (by simp)

/-- C8: escalate() increments escalation_level by exactly one (and by n
over n calls), promotes severity one step up the ladder
info → warning → minor → major → critical when not already critical, and
leaves a critical alarm critical under arbitrarily many further calls
while the level keeps growing. -/
theorem escalate_ladder (a : Alarm) :
    ((Alarm.escalate a).escalation_level = a.escalation_level + 1)
    ∧ (∀ n, (Alarm.escalate^[n] a).escalation_level = a.escalation_level + n)
    ∧ (a.severity = AlarmSeverity.info →
        (Alarm.escalate a).severity = AlarmSeverity.warning)
    ∧ (a.severity = AlarmSeverity.warning →
        (Alarm.escalate a).severity = AlarmSeverity.minor)
    ∧ (a.severity = AlarmSeverity.minor →
        (Alarm.escalate a).severity = AlarmSeverity.major)
    ∧ (a.severity = AlarmSeverity.major →
        (Alarm.escalate a).severity = AlarmSeverity.critical)
    ∧ (a.severity = AlarmSeverity.critical →
        ∀ n, (Alarm.escalate^[n] a).severity = AlarmSeverity.critical) := by
  refine ⟨escalate_escalation_level a, escalate_iterate_level a,
    fun h => ?_, fun h => ?_, fun h => ?_, fun h => ?_, fun h => ?_⟩
  · cases a with
    | mk id sev st lvl oc ia ik ic => cases sev <;> first | rfl | exact absurd h (by simp)
  · cases a with
    | mk id sev st lvl oc ia ik ic => cases sev <;> first | rfl | exact absurd h (by simp)
  · cases a with
    | mk id sev st lvl oc ia ik ic => cases sev <;> first | rfl | exact absurd h (by simp)
  · cases a with
    | mk id sev st lvl oc ia ik ic => cases sev <;> first | rfl | exact absurd h (by simp)
  · intro n
    induction n generalizing a with
    | zero => exact h
    | succ m ih =>
      rw [Function.iterate_succ_apply]
      exact ih (Alarm.escalate a) (escalate_critical_fixed a h)

/-- Witness for C8: five escalations of a critical alarm keep severity
critical while the level reaches 5, and escalating an info alarm yields
warning. -/
theorem escalate_ladder_witness :
    (Alarm.escalate^[5] ⟨"a1", AlarmSeverity.critical, AlarmStatus.active,
        0, 1, true, false, false⟩).severity = AlarmSeverity.critical
    ∧ (Alarm.escalate^[5] ⟨"a1", AlarmSeverity.critical, AlarmStatus.active,
        0, 1, true, false, false⟩).escalation_level = 0 + 5
    ∧ (Alarm.escalate ⟨"a2", AlarmSeverity.info, AlarmStatus.active,
        0, 1, true, false, false⟩).severity = AlarmSeverity.warning :=
  ⟨(escalate_ladder ⟨"a1", AlarmSeverity.critical, AlarmStatus.active,
      0, 1, true, false, false⟩).2.2.2.2.2.2 rfl 5,
   (escalate_ladder ⟨"a1", AlarmSeverity.critical, AlarmStatus.active,
      0, 1, true, false, false⟩).2.1 5,
   (escalate_ladder ⟨"a2", AlarmSeverity.info, AlarmStatus.active,
      0, 1, true, false, false⟩).2.2.1 rfl⟩

end Models

namespace Snmp

theorem assocUpsert_append {α : Type} (k : String) (v : α) (l : List (String × α))
    (h : k ∉ l.map Prod.fst) : assocUpsert k v l = l ++ [(k, v)] := by
  induction l with
  | nil => rfl
  | cons p t ih =>
    obtain ⟨k1, v1⟩ := p
    simp only [List.map_cons, List.mem_cons] at h
    push_neg at h
    have hne : (k1 == k) = false := beq_eq_false_iff_ne.mpr fun e => h.1 e.symm
    simp [assocUpsert, hne, ih h.2]

theorem foldl_assocUpsert {α : Type} (l acc : List (String × α))
    (h : ((acc ++ l).map Prod.fst).Nodup) :
    l.foldl (fun m kv => assocUpsert kv.1 kv.2 m) acc = acc ++ l := by
  induction l generalizing acc with
  | nil => simp
  | cons kv t ih =>
    have h' := h
    rw [List.map_append, List.map_cons, List.nodup_append] at h'
    have hk : kv.1 ∉ acc.map Prod.fst := fun hmem =>
      h'.2.2 hmem (List.mem_cons_self kv.1 (t.map Prod.fst))
    rw [List.foldl_cons, assocUpsert_append kv.1 kv.2 acc hk]
    have h2 : (((acc ++ [kv]) ++ t).map Prod.fst).Nodup := by
      rw [List.append_assoc]
      simpa using h
    rw [ih (acc ++ [kv]) h2, List.append_assoc]
    rfl

theorem dictOfPairs_eq_self {α : Type} (l : List (String × α))
    (h : (l.map Prod.fst).Nodup) : dictOfPairs l = l := by
  simpa using foldl_assocUpsert l [] (by simpa using h)

theorem lookup_eq_of_mem {α : Type} (l : List (String × α))
    (h : (l.map Prod.fst).Nodup) (p : String × α) (hp : p ∈ l) :
    l.lookup p.1 = some p.2 := by
  induction l with
  | nil => cases hp
  | cons q t ih =>
    obtain ⟨k1, v1⟩ := q
    rw [List.map_cons, List.nodup_cons] at h
    rcases List.mem_cons.mp hp with he | ht
    · subst he
      simp [List.lookup]
    · have hmem : p.1 ∈ t.map Prod.fst := List.mem_map.mpr ⟨p, ht, rfl⟩
      have hne : (p.1 == k1) = false :=
        beq_eq_false_iff_ne.mpr fun e => h.1 (e ▸ hmem)
      simp [List.lookup, hne, ih h.2 ht]

/-- C5: a bulk GET whose response carries an error indication or a
protocol error status yields the empty result map (no partial results);
an error-free response with one binding per requested OID yields a map
covering every requested OID, assigning each its returned value. -/
theorem get_bulk_all_or_nothing {α : Type} (oids : List String) (resp : BulkResponse α) :
    ((resp.errorIndication = true ∨ resp.errorStatus = true) → get_bulk oids resp = [])
    ∧ (resp.errorIndication = false → resp.errorStatus = false → oids.Nodup →
        resp.varBinds.length = oids.length →
        ((oids.zip resp.varBinds).map Prod.fst = oids
          ∧ ∀ p ∈ oids.zip resp.varBinds,
              (get_bulk oids resp).lookup p.1 = some p.2)) := by
  constructor
  · rintro (h | h) <;> simp [get_bulk, h]
  · intro h1 h2 hnd hlen
    have hfst : (oids.zip resp.varBinds).map Prod.fst = oids :=
      List.map_fst_zip _ _ (le_of_eq hlen.symm)
    have hkeys : ((oids.zip resp.varBinds).map Prod.fst).Nodup := by
      rw [hfst]; exact hnd
    have heq : get_bulk oids resp = oids.zip resp.varBinds := by
      simp [get_bulk, h1, h2, dictOfPairs_eq_self _ hkeys]
    exact ⟨hfst, fun p hp => by rw [heq]; exact lookup_eq_of_mem _ hkeys p hp⟩

/-- Witness for C5: an error-free 2-OID bulk GET returns both values; an
error indication empties the whole batch. -/
theorem get_bulk_all_or_nothing_witness :
    (get_bulk ["1.1", "1.2"]
        (⟨false, false, [(5 : ℤ), 7]⟩ : BulkResponse ℤ)).lookup "1.1" = some 5
    ∧ (get_bulk ["1.1", "1.2"]
        (⟨false, false, [(5 : ℤ), 7]⟩ : BulkResponse ℤ)).lookup "1.2" = some 7
    ∧ get_bulk ["1.1", "1.2"] (⟨true, false, [(5 : ℤ), 7]⟩ : BulkResponse ℤ) = [] :=
  ⟨((get_bulk_all_or_nothing ["1.1", "1.2"] ⟨false, false, [(5 : ℤ), 7]⟩).2
      rfl rfl (by decide) rfl).2 ("1.1", 5) (by decide),
   ((get_bulk_all_or_nothing ["1.1", "1.2"] ⟨false, false, [(5 : ℤ), 7]⟩).2
      rfl rfl (by decide) rfl).2 ("1.2", 7) (by decide),
   (get_bulk_all_or_nothing ["1.1", "1.2"] ⟨true, false, [(5 : ℤ), 7]⟩).1 (Or.inl rfl)⟩

theorem discover_foldl_general (slot port : ℤ) (respOf : ℤ → BulkResponse SnmpValue)
    (l : List (String × SnmpValue)) (acc : List ONTInfo) :
    l.foldl
      (fun onts kv =>
        match parse_ont_id kv.1 with
        | some ont_id =>
          match get_ont_info slot port ont_id (respOf ont_id) with
          | some ont_info => onts ++ [ont_info]
          | none => onts
        | none => onts) acc
      = acc ++ (l.filterMap (fun kv => parse_ont_id kv.1)).filterMap
          (fun i => get_ont_info slot port i (respOf i)) := by
  induction l generalizing acc with
  | nil => simp
  | cons kv t ih =>
    rw [List.foldl_cons]
    cases hp : parse_ont_id kv.1 with
    | none =>
      simp only [hp]
      rw [ih acc]
      simp [List.filterMap_cons, hp]
    | some i =>
      cases hg : get_ont_info slot port i (respOf i) with
      | none =>
        simp only [hp, hg]
        rw [ih acc]
        simp [List.filterMap_cons, hp, hg]
      | some info =>
        simp only [hp, hg]
        rw [ih (acc ++ [info])]
        simp [List.filterMap_cons, hp, hg]

theorem filterMap_length_all_some {β γ : Type} (f : β → Option γ) (l : List β)
    (h : ∀ x ∈ l, (f x).isSome) : (l.filterMap f).length = l.length := by
  induction l with
  | nil => rfl
  | cons a t ih =>
    obtain ⟨va, hva⟩ := Option.isSome_iff_exists.mp (h a (List.mem_cons_self a t))
    have ht : ∀ x ∈ t, (f x).isSome := fun x hx => h x (List.mem_cons_of_mem a hx)
    simp [List.filterMap_cons, hva, ih ht]

theorem filterMap_length_one_fail {β γ : Type} (f : β → Option γ) (ids : List β)
    (k : β) (hnd : ids.Nodup) (hk : k ∈ ids) (hfail : f k = none)
    (hok : ∀ i ∈ ids, i ≠ k → (f i).isSome) :
    (ids.filterMap f).length = ids.length - 1 := by
  induction ids with
  | nil => cases hk
  | cons a t ih =>
    have hnin : a ∉ t := (List.nodup_cons.mp hnd).1
    rcases List.mem_cons.mp hk with he | ht
    · have hfa : f a = none := he ▸ hfail
      have hall : ∀ x ∈ t, (f x).isSome := fun x hx =>
        hok x (List.mem_cons_of_mem a hx) (fun e => hnin ((e.trans he) ▸ hx))
      simp [List.filterMap_cons, hfa, filterMap_length_all_some f t hall]
    · have hane : a ≠ k := fun e => hnin (e ▸ ht)
      have ha : (f a).isSome := hok a (List.mem_cons_self a t) hane
      obtain ⟨va, hva⟩ := Option.isSome_iff_exists.mp ha
      have ihs := ih (List.nodup_cons.mp hnd).2 ht
        (fun i hi hn => hok i (List.mem_cons_of_mem a hi) hn)
      have htpos : 1 ≤ t.length := List.length_pos.mpr (List.ne_nil_of_mem ht)
      simp only [List.filterMap_cons, hva, List.length_cons, ihs]
      omega

/-- C6: a discovery pass over enumerated ONT ids in which the detail
fetch of exactly one ONT fails (get_ont_info returns None) still returns
the records of the other N−1 ONTs — a per-entity failure is skipped, not
propagated. -/
theorem discover_partial_isolation (slot port : ℤ)
    (walkData : List (String × SnmpValue)) (respOf : ℤ → BulkResponse SnmpValue)
    (ids : List ℤ) (k : ℤ)
    (hids : walkData.filterMap (fun kv => parse_ont_id kv.1) = ids)
    (hnd : ids.Nodup) (hk : k ∈ ids)
    (hfail : get_ont_info slot port k (respOf k) = none)
    (hok : ∀ i ∈ ids, i ≠ k → (get_ont_info slot port i (respOf i)).isSome) :
    (discover_all_onts slot port walkData respOf).length = ids.length - 1 := by
  unfold discover_all_onts
  rw [discover_foldl_general slot port respOf walkData [], hids, List.nil_append]
  exact filterMap_length_one_fail _ ids k hnd hk hfail hok

/-- Witness for C6: three walked ONTs of which number 2 fails its detail
fetch (transport error indication) yield two decoded records. -/
theorem discover_partial_isolation_witness :
    (discover_all_onts 1 1
      [(OID_ONT_STATUS ++ ".1.1.1", SnmpValue.int 1),
       (OID_ONT_STATUS ++ ".1.1.2", SnmpValue.int 1),
       (OID_ONT_STATUS ++ ".1.1.3", SnmpValue.int 1)]
      (fun i => if i = 2 then ⟨true, false, []⟩
        else ⟨false, false, [SnmpValue.int 1]⟩)).length = 2 :=
  discover_partial_isolation 1 1
    [(OID_ONT_STATUS ++ ".1.1.1", SnmpValue.int 1),
     (OID_ONT_STATUS ++ ".1.1.2", SnmpValue.int 1),
     (OID_ONT_STATUS ++ ".1.1.3", SnmpValue.int 1)]
    (fun i => if i = 2 then ⟨true, false, []⟩
      else ⟨false, false, [SnmpValue.int 1]⟩)
    [1, 2, 3] 2 (by decide) (by decide) (by decide) (by decide) (by decide)

theorem decodeOnt_eq (ont_id : ℤ) (idx : String) (dict : List (String × SnmpValue))
    (sc d rx tx volt temp upt rb tb rp tp : ℤ) (sn fw hw mac : String)
    (h0 : dict.lookup (OID_ONT_STATUS ++ "." ++ idx) = some (SnmpValue.int sc))
    (h1 : dict.lookup (OID_ONT_DISTANCE ++ "." ++ idx) = some (SnmpValue.int d))
    (h2 : dict.lookup (OID_ONT_RX_POWER ++ "." ++ idx) = some (SnmpValue.int rx))
    (h3 : dict.lookup (OID_ONT_TX_POWER ++ "." ++ idx) = some (SnmpValue.int tx))
    (h4 : dict.lookup (OID_ONT_VOLTAGE ++ "." ++ idx) = some (SnmpValue.int volt))
    (h5 : dict.lookup (OID_ONT_TEMPERATURE ++ "." ++ idx) = some (SnmpValue.int temp))
    (h6 : dict.lookup (OID_ONT_SERIAL ++ "." ++ idx) = some (SnmpValue.str sn))
    (h7 : dict.lookup (OID_ONT_FIRMWARE ++ "." ++ idx) = some (SnmpValue.str fw))
    (h8 : dict.lookup (OID_ONT_HARDWARE ++ "." ++ idx) = some (SnmpValue.str hw))
    (h9 : dict.lookup (OID_ONT_MAC ++ "." ++ idx) = some (SnmpValue.str mac))
    (h10 : dict.lookup (OID_ONT_UPTIME ++ "." ++ idx) = some (SnmpValue.int upt))
    (h11 : dict.lookup (OID_ONT_RX_BYTES ++ "." ++ idx) = some (SnmpValue.int rb))
    (h12 : dict.lookup (OID_ONT_TX_BYTES ++ "." ++ idx) = some (SnmpValue.int tb))
    (h13 : dict.lookup (OID_ONT_RX_PACKETS ++ "." ++ idx) = some (SnmpValue.int rp))
    (h14 : dict.lookup (OID_ONT_TX_PACKETS ++ "." ++ idx) = some (SnmpValue.int tp)) :
    decodeOnt ont_id idx dict
      = some
        { ont_id := ont_id
          serial_number := sn
          status := (ont_status_map sc).getD "unknown"
          distance := d
          rx_power := (rx : ℚ) / 100
          tx_power := (tx : ℚ) / 100
          voltage := (volt : ℚ) / 1000
          temperature := (temp : ℚ) / 100
          firmware_version := fw
          hardware_version := hw
          mac_address := mac
          uptime := upt
          rx_bytes := rb
          tx_bytes := tb
          rx_packets := rp
          tx_packets := tp } := by
  simp [decodeOnt, ontGetI, ontGetS, h0, h1, h2, h3, h4, h5, h6, h7, h8, h9, h10,
    h11, h12, h13, h14, pyInt, pyFloat, pyStr]

theorem decodePort_eq (slot port : ℤ) (idx : String) (dict : List (String × SnmpValue))
    (adm oper oc moc ptx prx temp volt bias rb tb rp tp re te : ℤ)
    (h0 : dict.lookup (OID_PORT_ADMIN_STATUS ++ "." ++ idx) = some (SnmpValue.int adm))
    (h1 : dict.lookup (OID_PORT_OPER_STATUS ++ "." ++ idx) = some (SnmpValue.int oper))
    (h2 : dict.lookup (OID_PORT_ONT_COUNT ++ "." ++ idx) = some (SnmpValue.int oc))
    (h3 : dict.lookup (OID_PORT_MAX_ONT ++ "." ++ idx) = some (SnmpValue.int moc))
    (h4 : dict.lookup (OID_PORT_OPTICAL_TX ++ "." ++ idx) = some (SnmpValue.int ptx))
    (h5 : dict.lookup (OID_PORT_OPTICAL_RX ++ "." ++ idx) = some (SnmpValue.int prx))
    (h6 : dict.lookup (OID_PORT_TEMPERATURE ++ "." ++ idx) = some (SnmpValue.int temp))
    (h7 : dict.lookup (OID_PORT_VOLTAGE ++ "." ++ idx) = some (SnmpValue.int volt))
    (h8 : dict.lookup (OID_PORT_BIAS_CURRENT ++ "." ++ idx) = some (SnmpValue.int bias))
    (h9 : dict.lookup (OID_PORT_RX_BYTES ++ "." ++ idx) = some (SnmpValue.int rb))
    (h10 : dict.lookup (OID_PORT_TX_BYTES ++ "." ++ idx) = some (SnmpValue.int tb))
    (h11 : dict.lookup (OID_PORT_RX_PACKETS ++ "." ++ idx) = some (SnmpValue.int rp))
    (h12 : dict.lookup (OID_PORT_TX_PACKETS ++ "." ++ idx) = some (SnmpValue.int tp))
    (h13 : dict.lookup (OID_PORT_RX_ERRORS ++ "." ++ idx) = some (SnmpValue.int re))
    (h14 : dict.lookup (OID_PORT_TX_ERRORS ++ "." ++ idx) = some (SnmpValue.int te)) :
    decodePort slot port idx dict
      = some
        { slot := slot
          port := port
          admin_status := adm != 0
          oper_status := if oper = 1 then "up" else "down"
          ont_count := oc
          max_ont_count := moc
          optical_power_tx := (ptx : ℚ) / 100
          optical_power_rx := (prx : ℚ) / 100
          temperature := (temp : ℚ) / 100
          voltage := (volt : ℚ) / 1000
          bias_current := (bias : ℚ) / 1000
          rx_bytes := rb
          tx_bytes := tb
          rx_packets := rp
          tx_packets := tp
          rx_errors := re
          tx_errors := te } := by
  simp [decodePort, portGetI, h0, h1, h2, h3, h4, h5, h6, h7, h8, h9, h10,
    h11, h12, h13, h14, pyInt, pyFloat, pyBool]

/-- C9: for every raw integer reading, the adapter decodes the
optical-power and temperature OIDs by dividing by 100 and the voltage and
bias-current OIDs by dividing by 1000, for both ONTs and ports (the
remaining fields are carried over: status via the code map, counters and
strings unscaled). -/
theorem scaling_decode (slot port ont_id : ℤ)
    (sc d rx tx volt temp upt rb tb rp tp : ℤ) (sn fw hw mac : String)
    (adm oper oc moc pptx pprx ptemp pvolt pbias prb ptb prp ptp pre pte : ℤ)
    (hndOnt : (ontOids (toString slot ++ "." ++ toString port ++ "." ++
      toString ont_id)).Nodup)
    (hndPort : (portOids (toString slot ++ "." ++ toString port)).Nodup) :
    (get_ont_info slot port ont_id
      ⟨false, false,
       [SnmpValue.int sc, SnmpValue.int d, SnmpValue.int rx, SnmpValue.int tx,
       SnmpValue.int volt, SnmpValue.int temp, SnmpValue.str sn,
       SnmpValue.str fw, SnmpValue.str hw, SnmpValue.str mac,
       SnmpValue.int upt, SnmpValue.int rb, SnmpValue.int tb,
       SnmpValue.int rp, SnmpValue.int tp]⟩
      = some
        { ont_id := ont_id
          serial_number := sn
          status := (ont_status_map sc).getD "unknown"
          distance := d
          rx_power := (rx : ℚ) / 100
          tx_power := (tx : ℚ) / 100
          voltage := (volt : ℚ) / 1000
          temperature := (temp : ℚ) / 100
          firmware_version := fw
          hardware_version := hw
          mac_address := mac
          uptime := upt
          rx_bytes := rb
          tx_bytes := tb
          rx_packets := rp
          tx_packets := tp })
    ∧ (get_port_info slot port
      ⟨false, false,
       [SnmpValue.int adm, SnmpValue.int oper, SnmpValue.int oc,
       SnmpValue.int moc, SnmpValue.int pptx, SnmpValue.int pprx,
       SnmpValue.int ptemp, SnmpValue.int pvolt, SnmpValue.int pbias,
       SnmpValue.int prb, SnmpValue.int ptb, SnmpValue.int prp,
       SnmpValue.int ptp, SnmpValue.int pre, SnmpValue.int pte]⟩
      = some
        { slot := slot
          port := port
          admin_status := adm != 0
          oper_status := if oper = 1 then "up" else "down"
          ont_count := oc
          max_ont_count := moc
          optical_power_tx := (pptx : ℚ) / 100
          optical_power_rx := (pprx : ℚ) / 100
          temperature := (ptemp : ℚ) / 100
          voltage := (pvolt : ℚ) / 1000
          bias_current := (pbias : ℚ) / 1000
          rx_bytes := prb
          tx_bytes := ptb
          rx_packets := prp
          tx_packets := ptp
          rx_errors := pre
          tx_errors := pte }) := by
  constructor
  · set idx := toString slot ++ "." ++ toString port ++ "." ++ toString ont_id with hidx
    set vs : List SnmpValue :=
      [SnmpValue.int sc, SnmpValue.int d, SnmpValue.int rx, SnmpValue.int tx,
       SnmpValue.int volt, SnmpValue.int temp, SnmpValue.str sn,
       SnmpValue.str fw, SnmpValue.str hw, SnmpValue.str mac,
       SnmpValue.int upt, SnmpValue.int rb, SnmpValue.int tb,
       SnmpValue.int rp, SnmpValue.int tp] with hvs
    have hzip : (ontOids idx).zip vs =
      [(OID_ONT_STATUS ++ "." ++ idx, SnmpValue.int sc),
       (OID_ONT_DISTANCE ++ "." ++ idx, SnmpValue.int d),
       (OID_ONT_RX_POWER ++ "." ++ idx, SnmpValue.int rx),
       (OID_ONT_TX_POWER ++ "." ++ idx, SnmpValue.int tx),
       (OID_ONT_VOLTAGE ++ "." ++ idx, SnmpValue.int volt),
       (OID_ONT_TEMPERATURE ++ "." ++ idx, SnmpValue.int temp),
       (OID_ONT_SERIAL ++ "." ++ idx, SnmpValue.str sn),
       (OID_ONT_FIRMWARE ++ "." ++ idx, SnmpValue.str fw),
       (OID_ONT_HARDWARE ++ "." ++ idx, SnmpValue.str hw),
       (OID_ONT_MAC ++ "." ++ idx, SnmpValue.str mac),
       (OID_ONT_UPTIME ++ "." ++ idx, SnmpValue.int upt),
       (OID_ONT_RX_BYTES ++ "." ++ idx, SnmpValue.int rb),
       (OID_ONT_TX_BYTES ++ "." ++ idx, SnmpValue.int tb),
       (OID_ONT_RX_PACKETS ++ "." ++ idx, SnmpValue.int rp),
       (OID_ONT_TX_PACKETS ++ "." ++ idx, SnmpValue.int tp)] := rfl
    have hfst : ((ontOids idx).zip vs).map Prod.fst = ontOids idx :=
      List.map_fst_zip _ _ (by simp [ontOids, hvs])
    have hkeys : (((ontOids idx).zip vs).map Prod.fst).Nodup := by
      rw [hfst]; exact hndOnt
    have hgb : get_bulk (ontOids idx) ⟨false, false, vs⟩ = (ontOids idx).zip vs := by
      simp only [get_bulk, Bool.false_eq_true, if_false]
      exact dictOfPairs_eq_self _ hkeys
    simp only [get_ont_info]
    rw [hgb, hzip]
    rw [if_neg (by simp)]
    have hkeys2 := hkeys
    rw [hzip] at hkeys2
    exact decodeOnt_eq ont_id idx _ sc d rx tx volt temp upt rb tb rp tp sn fw hw mac
      (lookup_eq_of_mem _ hkeys2 (OID_ONT_STATUS ++ "." ++ idx, SnmpValue.int sc) (by simp))
      (lookup_eq_of_mem _ hkeys2 (OID_ONT_DISTANCE ++ "." ++ idx, SnmpValue.int d) (by simp))
      (lookup_eq_of_mem _ hkeys2 (OID_ONT_RX_POWER ++ "." ++ idx, SnmpValue.int rx) (by simp))
      (lookup_eq_of_mem _ hkeys2 (OID_ONT_TX_POWER ++ "." ++ idx, SnmpValue.int tx) (by simp))
      (lookup_eq_of_mem _ hkeys2 (OID_ONT_VOLTAGE ++ "." ++ idx, SnmpValue.int volt) (by simp))
      (lookup_eq_of_mem _ hkeys2 (OID_ONT_TEMPERATURE ++ "." ++ idx, SnmpValue.int temp) (by simp))
      (lookup_eq_of_mem _ hkeys2 (OID_ONT_SERIAL ++ "." ++ idx, SnmpValue.str sn) (by simp))
      (lookup_eq_of_mem _ hkeys2 (OID_ONT_FIRMWARE ++ "." ++ idx, SnmpValue.str fw) (by simp))
      (lookup_eq_of_mem _ hkeys2 (OID_ONT_HARDWARE ++ "." ++ idx, SnmpValue.str hw) (by simp))
      (lookup_eq_of_mem _ hkeys2 (OID_ONT_MAC ++ "." ++ idx, SnmpValue.str mac) (by simp))
      (lookup_eq_of_mem _ hkeys2 (OID_ONT_UPTIME ++ "." ++ idx, SnmpValue.int upt) (by simp))
      (lookup_eq_of_mem _ hkeys2 (OID_ONT_RX_BYTES ++ "." ++ idx, SnmpValue.int rb) (by simp))
      (lookup_eq_of_mem _ hkeys2 (OID_ONT_TX_BYTES ++ "." ++ idx, SnmpValue.int tb) (by simp))
      (lookup_eq_of_mem _ hkeys2 (OID_ONT_RX_PACKETS ++ "." ++ idx, SnmpValue.int rp) (by simp))
      (lookup_eq_of_mem _ hkeys2 (OID_ONT_TX_PACKETS ++ "." ++ idx, SnmpValue.int tp) (by simp))
  · set pidx := toString slot ++ "." ++ toString port with hpidx
    set pvs : List SnmpValue :=
      [SnmpValue.int adm, SnmpValue.int oper, SnmpValue.int oc,
       SnmpValue.int moc, SnmpValue.int pptx, SnmpValue.int pprx,
       SnmpValue.int ptemp, SnmpValue.int pvolt, SnmpValue.int pbias,
       SnmpValue.int prb, SnmpValue.int ptb, SnmpValue.int prp,
       SnmpValue.int ptp, SnmpValue.int pre, SnmpValue.int pte] with hpvs
    have hzip : (portOids pidx).zip pvs =
      [(OID_PORT_ADMIN_STATUS ++ "." ++ pidx, SnmpValue.int adm),
       (OID_PORT_OPER_STATUS ++ "." ++ pidx, SnmpValue.int oper),
       (OID_PORT_ONT_COUNT ++ "." ++ pidx, SnmpValue.int oc),
       (OID_PORT_MAX_ONT ++ "." ++ pidx, SnmpValue.int moc),
       (OID_PORT_OPTICAL_TX ++ "." ++ pidx, SnmpValue.int pptx),
       (OID_PORT_OPTICAL_RX ++ "." ++ pidx, SnmpValue.int pprx),
       (OID_PORT_TEMPERATURE ++ "." ++ pidx, SnmpValue.int ptemp),
       (OID_PORT_VOLTAGE ++ "." ++ pidx, SnmpValue.int pvolt),
       (OID_PORT_BIAS_CURRENT ++ "." ++ pidx, SnmpValue.int pbias),
       (OID_PORT_RX_BYTES ++ "." ++ pidx, SnmpValue.int prb),
       (OID_PORT_TX_BYTES ++ "." ++ pidx, SnmpValue.int ptb),
       (OID_PORT_RX_PACKETS ++ "." ++ pidx, SnmpValue.int prp),
       (OID_PORT_TX_PACKETS ++ "." ++ pidx, SnmpValue.int ptp),
       (OID_PORT_RX_ERRORS ++ "." ++ pidx, SnmpValue.int pre),
       (OID_PORT_TX_ERRORS ++ "." ++ pidx, SnmpValue.int pte)] := rfl
    have hfst : ((portOids pidx).zip pvs).map Prod.fst = portOids pidx :=
      List.map_fst_zip _ _ (by simp [portOids, hpvs])
    have hkeys : (((portOids pidx).zip pvs).map Prod.fst).Nodup := by
      rw [hfst]; exact hndPort
    have hgb : get_bulk (portOids pidx) ⟨false, false, pvs⟩ = (portOids pidx).zip pvs := by
      simp only [get_bulk, Bool.false_eq_true, if_false]
      exact dictOfPairs_eq_self _ hkeys
    simp only [get_port_info]
    rw [hgb, hzip]
    rw [if_neg (by simp)]
    have hkeys2 := hkeys
    rw [hzip] at hkeys2
    exact decodePort_eq slot port pidx _ adm oper oc moc pptx pprx ptemp pvolt pbias
      prb ptb prp ptp pre pte
      (lookup_eq_of_mem _ hkeys2 (OID_PORT_ADMIN_STATUS ++ "." ++ pidx, SnmpValue.int adm) (by simp))
      (lookup_eq_of_mem _ hkeys2 (OID_PORT_OPER_STATUS ++ "." ++ pidx, SnmpValue.int oper) (by simp))
      (lookup_eq_of_mem _ hkeys2 (OID_PORT_ONT_COUNT ++ "." ++ pidx, SnmpValue.int oc) (by simp))
      (lookup_eq_of_mem _ hkeys2 (OID_PORT_MAX_ONT ++ "." ++ pidx, SnmpValue.int moc) (by simp))
      (lookup_eq_of_mem _ hkeys2 (OID_PORT_OPTICAL_TX ++ "." ++ pidx, SnmpValue.int pptx) (by simp))
      (lookup_eq_of_mem _ hkeys2 (OID_PORT_OPTICAL_RX ++ "." ++ pidx, SnmpValue.int pprx) (by simp))
      (lookup_eq_of_mem _ hkeys2 (OID_PORT_TEMPERATURE ++ "." ++ pidx, SnmpValue.int ptemp) (by simp))
      (lookup_eq_of_mem _ hkeys2 (OID_PORT_VOLTAGE ++ "." ++ pidx, SnmpValue.int pvolt) (by simp))
      (lookup_eq_of_mem _ hkeys2 (OID_PORT_BIAS_CURRENT ++ "." ++ pidx, SnmpValue.int pbias) (by simp))
      (lookup_eq_of_mem _ hkeys2 (OID_PORT_RX_BYTES ++ "." ++ pidx, SnmpValue.int prb) (by simp))
      (lookup_eq_of_mem _ hkeys2 (OID_PORT_TX_BYTES ++ "." ++ pidx, SnmpValue.int ptb) (by simp))
      (lookup_eq_of_mem _ hkeys2 (OID_PORT_RX_PACKETS ++ "." ++ pidx, SnmpValue.int prp) (by simp))
      (lookup_eq_of_mem _ hkeys2 (OID_PORT_TX_PACKETS ++ "." ++ pidx, SnmpValue.int ptp) (by simp))
      (lookup_eq_of_mem _ hkeys2 (OID_PORT_RX_ERRORS ++ "." ++ pidx, SnmpValue.int pre) (by simp))
      (lookup_eq_of_mem _ hkeys2 (OID_PORT_TX_ERRORS ++ "." ++ pidx, SnmpValue.int pte) (by simp))

/-- Witness for C9: the raw ONT rx-power reading -2550 decodes to exactly
-25.50 dBm and the raw ONT voltage reading 3300 to 3.3 V. -/
theorem scaling_decode_witness :
    ((get_ont_info 1 2 3
        ⟨false, false,
         [SnmpValue.int 1, SnmpValue.int 0, SnmpValue.int (-2550), SnmpValue.int 0,
          SnmpValue.int 3300, SnmpValue.int 0, SnmpValue.str "SN1",
          SnmpValue.str "V1", SnmpValue.str "H1", SnmpValue.str "M1",
          SnmpValue.int 0, SnmpValue.int 0, SnmpValue.int 0, SnmpValue.int 0,
          SnmpValue.int 0]⟩).map ONTInfo.rx_power = some (-25.5 : ℚ))
    ∧ ((get_ont_info 1 2 3
        ⟨false, false,
         [SnmpValue.int 1, SnmpValue.int 0, SnmpValue.int (-2550), SnmpValue.int 0,
          SnmpValue.int 3300, SnmpValue.int 0, SnmpValue.str "SN1",
          SnmpValue.str "V1", SnmpValue.str "H1", SnmpValue.str "M1",
          SnmpValue.int 0, SnmpValue.int 0, SnmpValue.int 0, SnmpValue.int 0,
          SnmpValue.int 0]⟩).map ONTInfo.voltage = some (3.3 : ℚ)) := by
  have h := (scaling_decode 1 2 3 1 0 (-2550) 0 3300 0 0 0 0 0 0 "SN1" "V1" "H1" "M1"
    0 0 0 0 0 0 0 0 0 0 0 0 0 0 0 (by decide) (by decide)).1
  rw [h]
  constructor
  · simp only [Option.map_some']
    norm_num
  · simp only [Option.map_some']
    norm_num

end Snmp

end OltManager
